import Mathlib

/-
Verification of the `m128` SIMD wrapper type of the safe_arch crate
(`src/intel/m128_.rs`): the data model, the array bridge, and the seven
formatting implementations.

Modelling choices:
* An `f32` lane is represented by its 32-bit IEEE-754 bit pattern
  (`Fin (2 ^ 32)`); the crate's conversions are `core::mem::transmute`,
  which is the identity on bit patterns, so bit-exactness is the native
  notion of equality here.
* `m128` is `#[repr(transparent)]` over `__m128`, whose bit content is
  four `f32` lanes in lane order; it is modelled as a wrapper around the
  model of `[f32; 4]`.
* The `fmt` implementations build strings; the caller's
  `core::fmt::Formatter` is modelled by an explicit record of its
  parameters that each implementation threads, exactly as the source
  threads `f`, into every lane's one-lane formatter.
-/

/-- Bit pattern of one IEEE-754 binary32 (`f32`) lane: an unsigned 32-bit value. -/
abbrev F32 : Type := Fin (2 ^ 32)

/-- Rust `f32::to_bits`: reinterpret the float as its raw `u32` bit pattern
(a transmute, hence the identity on the pattern). -/
def F32.to_bits (b : F32) : Nat := b.val

/-- Sign bit of an `f32` bit pattern (bit 31). -/
def f32Sign (b : F32) : Nat := b.val / 2 ^ 31

/-- Biased exponent field of an `f32` bit pattern (bits 23..31). -/
def f32Expo (b : F32) : Nat := b.val / 2 ^ 23 % 2 ^ 8

/-- Mantissa field of an `f32` bit pattern (bits 0..23). -/
def f32Mant (b : F32) : Nat := b.val % 2 ^ 23

/-- Numeric value of a finite `f32` bit pattern, as an exact rational
(IEEE-754 binary32: subnormals scale by 2 ^ (-149), normals carry the
implicit leading bit and scale by 2 ^ (expo - 150)). -/
def f32Val (b : F32) : ℚ :=
  let s : ℚ := if f32Sign b = 1 then -1 else 1
  if f32Expo b = 0 then s * (f32Mant b : ℚ) / 2 ^ 149
  else s * ((2 ^ 23 + f32Mant b : Nat) : ℚ) * 2 ^ f32Expo b / 2 ^ 150

/-- NaN test on a bit pattern: exponent field all ones, nonzero mantissa. -/
def f32IsNaN (b : F32) : Bool := f32Expo b == 255 && f32Mant b != 0

/-- Infinity test on a bit pattern: exponent field all ones, zero mantissa. -/
def f32IsInf (b : F32) : Bool := f32Expo b == 255 && f32Mant b == 0

/-- Integer significand of a finite `f32` bit pattern. -/
def f32Sig (b : F32) : Nat := if f32Expo b = 0 then f32Mant b else 2 ^ 23 + f32Mant b

/-- Binary exponent of a finite `f32` bit pattern, so that the numeric value
is `f32Sig b * 2 ^ f32Exp2 b` up to sign. -/
def f32Exp2 (b : F32) : Int := if f32Expo b = 0 then -149 else (f32Expo b : Int) - 150

/-- The all-zero `f32` bit pattern: IEEE-754 positive zero. -/
def zeroF32 : F32 := ⟨0, by norm_num⟩

/-- Bit pattern of the `f32` literal `1.0` (sign 0, expo 127, mantissa 0). -/
def oneBits : F32 := ⟨0x3F800000, by norm_num⟩

/-- Bit pattern of the `f32` literal `-1.0` (sign 1, expo 127, mantissa 0). -/
def negOneBits : F32 := ⟨0xBF800000, by norm_num⟩

/-- Bit pattern of the `f32` literal `0.5` (sign 0, expo 126, mantissa 0). -/
def halfBits : F32 := ⟨0x3F000000, by norm_num⟩

/-- Bit pattern of the `f32` literal `2.0` (sign 0, expo 128, mantissa 0). -/
def twoBits : F32 := ⟨0x40000000, by norm_num⟩

/-- Model of the Rust array type `[f32; 4]`: four lanes in lane order,
lane `i` occupying bytes `[4*i, 4*i + 4)` of the 16-byte value. -/
structure F32x4 where
  x0 : F32
  x1 : F32
  x2 : F32
  x3 : F32
deriving DecidableEq

/-- The test array `[1.0, -1.0, 0.5, 2.0]` of the spec's divergence scenario. -/
def testArr : F32x4 := ⟨oneBits, negOneBits, halfBits, twoBits⟩

/-- The `m128` type: `#[repr(transparent)]` newtype over the 128-bit SSE
register type `__m128`, whose bit content is four `f32` lanes. -/
structure m128 where
  reg : F32x4
deriving DecidableEq

/-- `m128::to_array` / `From<m128> for [f32; 4]`: `core::mem::transmute`,
the identity on the 128 bits. -/
def m128.to_array (m : m128) : F32x4 := m.reg

/-- `m128::from_array` / `From<[f32; 4]> for m128`: `core::mem::transmute`,
the identity on the 128 bits. -/
def m128.from_array (a : F32x4) : m128 := ⟨a⟩

/-- `impl Clone for m128`: the body is `*self`, a plain bit copy. -/
def m128.clone (m : m128) : m128 := m

/-- `impl Default for m128`: `core::mem::zeroed()`, the all-zero-bits value. -/
def m128.default : m128 := ⟨⟨zeroF32, zeroF32, zeroF32, zeroF32⟩⟩

/-- Reading lane `i` through the `AsRef<[f32; 4]>` view (the view is a
transmute of the reference, aliasing the same 16 bytes). -/
def m128.lane (m : m128) (i : Fin 4) : F32 :=
  match i with
  | ⟨0, _⟩ => m.reg.x0
  | ⟨1, _⟩ => m.reg.x1
  | ⟨2, _⟩ => m.reg.x2
  | ⟨3, _⟩ => m.reg.x3
  | ⟨n + 4, h⟩ => absurd h (by omega)

/-- Writing lane `i` through the `AsMut<[f32; 4]>` view: the view aliases
the same 16 bytes, so the write lands in the register value itself. -/
def m128.set_lane (m : m128) (i : Fin 4) (x : F32) : m128 :=
  match i with
  | ⟨0, _⟩ => ⟨⟨x, m.reg.x1, m.reg.x2, m.reg.x3⟩⟩
  | ⟨1, _⟩ => ⟨⟨m.reg.x0, x, m.reg.x2, m.reg.x3⟩⟩
  | ⟨2, _⟩ => ⟨⟨m.reg.x0, m.reg.x1, x, m.reg.x3⟩⟩
  | ⟨3, _⟩ => ⟨⟨m.reg.x0, m.reg.x1, m.reg.x2, x⟩⟩
  | ⟨n + 4, h⟩ => absurd h (by omega)

/-- `self.to_array().iter()`: the four lanes in lane order. -/
def F32x4.lanes (a : F32x4) : List F32 := [a.x0, a.x1, a.x2, a.x3]

/-- Model of the caller-supplied `core::fmt::Formatter` parameters that the
seven `fmt` impls receive and thread to each lane's formatter: alternate
form (`#`), forced sign (`+`), sign-aware zero padding (`0`), minimum
width, fill character, and precision. Custom alignment is not modelled;
the default right-alignment of numeric padding is. -/
structure FmtSpec where
  alternate : Bool
  sign_plus : Bool
  zero_pad : Bool
  width : Option Nat
  fill : Char
  precision : Option Nat
deriving DecidableEq

/-- The default formatter parameters, as produced by a bare format spec. -/
def FmtSpec.dflt : FmtSpec := ⟨false, false, false, none, ' ', none⟩

/-- Formatter parameters with the alternate-form flag (`{:#x}`) set. -/
def FmtSpec.alt : FmtSpec := ⟨true, false, false, none, ' ', none⟩

/-- Formatter parameters with a minimum width of 4 (`{:4x}`). -/
def FmtSpec.width4 : FmtSpec := ⟨false, false, false, some 4, ' ', none⟩

/-- Model of `Formatter::pad_integral`: sign, then the alternate-form
leader `pfx` when requested, then the digit buffer; a shortfall against a
requested width is made up with zeros between leader and digits under
sign-aware zero padding, else with the fill character on the left. -/
def pad_integral (spec : FmtSpec) (is_nonneg : Bool) (pfx : String) (buf : String) : String :=
  let sign := if is_nonneg then (if spec.sign_plus then "+" else "") else "-"
  let lead := if spec.alternate then pfx else ""
  let core := sign ++ lead ++ buf
  match spec.width with
  | none => core
  | some w =>
    if w ≤ core.length then core
    else if spec.zero_pad then
      sign ++ lead ++ String.mk (List.replicate (w - core.length) '0') ++ buf
    else String.mk (List.replicate (w - core.length) spec.fill) ++ core

/-- `impl Binary for u32` as applied to a lane's bit pattern: base-2 digits
of the unsigned value, padded via `pad_integral` with leader `0b`;
precision is ignored for integers. -/
def u32Binary (spec : FmtSpec) (n : Nat) : String :=
  pad_integral spec true "0b" (String.mk (Nat.toDigits 2 n))

/-- `impl Octal for u32` as applied to a lane's bit pattern: base-8 digits,
leader `0o`. -/
def u32Octal (spec : FmtSpec) (n : Nat) : String :=
  pad_integral spec true "0o" (String.mk (Nat.toDigits 8 n))

/-- `impl LowerHex for u32` as applied to a lane's bit pattern: base-16
digits with lowercase letters, leader `0x`. -/
def u32LowerHex (spec : FmtSpec) (n : Nat) : String :=
  pad_integral spec true "0x" (String.mk (Nat.toDigits 16 n))

/-- `impl UpperHex for u32` as applied to a lane's bit pattern: base-16
digits with uppercase letters, leader `0x`. -/
def u32UpperHex (spec : FmtSpec) (n : Nat) : String :=
  pad_integral spec true "0x" (String.mk ((Nat.toDigits 16 n).map Char.toUpper))

/-- Drop trailing `'0'` characters from a digit list. -/
def trimTrailingZeros (l : List Char) : List Char :=
  (l.reverse.dropWhile (· == '0')).reverse

/-- Left-pad a digit list with `'0'` up to length `d`. -/
def padZerosTo (d : Nat) (l : List Char) : List Char :=
  List.replicate (d - l.length) '0' ++ l

/-- Integer part and exact fractional digit list of the rational
`M * 2 ^ E` (using `M * 2 ^ E = M * 5 ^ d / 10 ^ d` for `E = -d < 0`). -/
def decParts (M : Nat) (E : Int) : Nat × List Char :=
  if 0 ≤ E then (M * 2 ^ E.toNat, [])
  else
    let d := (-E).toNat
    let num := M * 5 ^ d
    (num / 10 ^ d, padZerosTo d (Nat.toDigits 10 (num % 10 ^ d)))

/-- Positional decimal numeral of the rational `M * 2 ^ E`: integer part,
then the fractional digits with trailing zeros trimmed (no fraction at all
for an integral value); a supplied precision fixes the fractional digit
count instead, zero-extending or truncating. -/
def decBody (prec : Option Nat) (M : Nat) (E : Int) : String :=
  let p := decParts M E
  match prec with
  | none =>
    let fd := trimTrailingZeros p.2
    if fd.isEmpty then String.mk (Nat.toDigits 10 p.1)
    else String.mk (Nat.toDigits 10 p.1) ++ "." ++ String.mk fd
  | some k =>
    if k = 0 then String.mk (Nat.toDigits 10 p.1)
    else String.mk (Nat.toDigits 10 p.1) ++ "." ++
      String.mk ((p.2 ++ List.replicate k '0').take k)

/-- Positional decimal numeral as in `decBody`, but guaranteeing at least
one fractional digit (`.0` on integral values), the way Rust's float
`Debug` rendering does. -/
def decBodyDebug (prec : Option Nat) (M : Nat) (E : Int) : String :=
  match prec with
  | some k => decBody (some k) M E
  | none =>
    let p := decParts M E
    let fd := trimTrailingZeros p.2
    if fd.isEmpty then String.mk (Nat.toDigits 10 p.1) ++ ".0"
    else String.mk (Nat.toDigits 10 p.1) ++ "." ++ String.mk fd

/-- Scientific-notation numeral of the rational `M * 2 ^ E` with the given
exponent marker: one leading digit, a fractional part (trimmed, or sized
by the precision), the marker, and the decimal exponent; zero renders as
`0` marker `0`. -/
def sciBody (prec : Option Nat) (M : Nat) (E : Int) (marker : String) : String :=
  if M = 0 then
    (match prec with
     | none => "0"
     | some k => if k = 0 then "0" else "0." ++ String.mk (List.replicate k '0')) ++
      marker ++ "0"
  else
    let ds := if 0 ≤ E then Nat.toDigits 10 (M * 2 ^ E.toNat)
      else Nat.toDigits 10 (M * 5 ^ (-E).toNat)
    let k10 : Int := (ds.length : Int) - 1 - (if 0 ≤ E then 0 else (-E).toNat)
    match ds with
    | [] => "0" ++ marker ++ "0"
    | c :: rest =>
      let frac := match prec with
        | none => trimTrailingZeros rest
        | some k => (rest ++ List.replicate k '0').take k
      (if frac.isEmpty then String.mk [c] else String.mk [c] ++ "." ++ String.mk frac) ++
        marker ++ ((if k10 < 0 then "-" else "") ++ String.mk (Nat.toDigits 10 k10.natAbs))

/-- Modelled from the spec: `Display for f32`, the one-lane numeric
formatter that `Display for m128` calls, is Rust standard-library code
outside this repository. The spec (§4.2, §8.6) pins the zero rendering
(`"0"`, also pinned by the impl's own doctest) and the special values, and
its §9 open question leaves the remaining numerals to the platform's
default float rendering; finite nonzero lanes here render the exact
decimal expansion of the represented rational (Rust renders the shortest
round-tripping decimal), and a supplied precision selects the fractional
digit count by zero-extension or truncation. Width, fill, sign and
zero-padding are applied per the formatter parameters. -/
def f32Display (spec : FmtSpec) (b : F32) : String :=
  if f32IsNaN b then pad_integral spec true "" "NaN"
  else if f32IsInf b then pad_integral spec (f32Sign b == 0) "" "inf"
  else pad_integral spec (f32Sign b == 0) ""
    (decBody spec.precision (f32Sig b) (f32Exp2 b))

/-- Modelled from the spec: `Debug for f32` (standard-library code outside
this repository), identical to `f32Display` except that an integral finite
value keeps one fractional digit (`.0`), which is what the spec's §8.5
scenario and the impl's own doctest pin at zero (`"0.0"`). -/
def f32Debug (spec : FmtSpec) (b : F32) : String :=
  if f32IsNaN b then pad_integral spec true "" "NaN"
  else if f32IsInf b then pad_integral spec (f32Sign b == 0) "" "inf"
  else pad_integral spec (f32Sign b == 0) ""
    (decBodyDebug spec.precision (f32Sig b) (f32Exp2 b))

/-- Modelled from the spec: the scientific-notation one-lane formatter of
`LowerExp` / `UpperExp for f32` (standard-library code outside this
repository), parameterized by the exponent marker, operating on the
numeric value; the spec's §8.8 scenario and the impls' own doctests pin
the zero rendering (`"0e0"` / `"0E0"`). -/
def f32Sci (spec : FmtSpec) (marker : String) (b : F32) : String :=
  if f32IsNaN b then pad_integral spec true "" "NaN"
  else if f32IsInf b then pad_integral spec (f32Sign b == 0) "" "inf"
  else pad_integral spec (f32Sign b == 0) ""
    (sciBody spec.precision (f32Sig b) (f32Exp2 b) marker)

/-- `LowerExp for f32`: scientific notation with the lowercase marker. -/
def f32LowerExp (spec : FmtSpec) (b : F32) : String := f32Sci spec "e" b

/-- `UpperExp for f32`: scientific notation with the uppercase marker. -/
def f32UpperExp (spec : FmtSpec) (b : F32) : String := f32Sci spec "E" b

/-- The per-lane loop shared by all seven `fmt` impls: iterate the lanes of
`self.to_array()` with `enumerate`, writing `", "` before every lane whose
index is nonzero, then the lane's own rendering with the caller's
formatter. -/
def writeLanes (laneFmt : FmtSpec → F32 → String) (spec : FmtSpec) : Nat → List F32 → String
  | _, [] => ""
  | i, x :: xs =>
    (if i ≠ 0 then ", " else "") ++ laneFmt spec x ++ writeLanes laneFmt spec (i + 1) xs

/-- `impl Debug for m128`: writes `"m128("`, then each lane with
`Debug::fmt(float, f)`, then `")"`. -/
def m128.fmtDebug (spec : FmtSpec) (m : m128) : String :=
  "m128(" ++ writeLanes f32Debug spec 0 m.to_array.lanes ++ ")"

/-- `impl Display for m128`: writes `"("`, then each lane with
`Display::fmt(float, f)`, then `")"`. -/
def m128.fmtDisplay (spec : FmtSpec) (m : m128) : String :=
  "(" ++ writeLanes f32Display spec 0 m.to_array.lanes ++ ")"

/-- `impl Binary for m128`: writes `"("`, then each lane with
`Binary::fmt(&float.to_bits(), f)`, then `")"`. -/
def m128.fmtBinary (spec : FmtSpec) (m : m128) : String :=
  "(" ++ writeLanes (fun s b => u32Binary s (F32.to_bits b)) spec 0 m.to_array.lanes ++ ")"

/-- `impl LowerExp for m128`: writes `"("`, then each lane with
`LowerExp::fmt(float, f)`, then `")"`. -/
def m128.fmtLowerExp (spec : FmtSpec) (m : m128) : String :=
  "(" ++ writeLanes f32LowerExp spec 0 m.to_array.lanes ++ ")"

/-- `impl UpperExp for m128`: writes `"("`, then each lane with
`UpperExp::fmt(float, f)`, then `")"`. -/
def m128.fmtUpperExp (spec : FmtSpec) (m : m128) : String :=
  "(" ++ writeLanes f32UpperExp spec 0 m.to_array.lanes ++ ")"

/-- `impl LowerHex for m128`: writes `"("`, then each lane with
`LowerHex::fmt(&float.to_bits(), f)`, then `")"`. -/
def m128.fmtLowerHex (spec : FmtSpec) (m : m128) : String :=
  "(" ++ writeLanes (fun s b => u32LowerHex s (F32.to_bits b)) spec 0 m.to_array.lanes ++ ")"

/-- `impl UpperHex for m128`: writes `"("`, then each lane with
`UpperHex::fmt(&float.to_bits(), f)`, then `")"`. -/
def m128.fmtUpperHex (spec : FmtSpec) (m : m128) : String :=
  "(" ++ writeLanes (fun s b => u32UpperHex s (F32.to_bits b)) spec 0 m.to_array.lanes ++ ")"

/-- `impl Octal for m128`: writes `"("`, then each lane with
`Octal::fmt(&float.to_bits(), f)`, then `")"`. -/
def m128.fmtOctal (spec : FmtSpec) (m : m128) : String :=
  "(" ++ writeLanes (fun s b => u32Octal s (F32.to_bits b)) spec 0 m.to_array.lanes ++ ")"

/-- Unfolding of the shared lane loop on a four-lane list. -/
theorem writeLanes_quad (lf : FmtSpec → F32 → String) (spec : FmtSpec) (a b c d : F32) :
    writeLanes lf spec 0 [a, b, c, d] =
      lf spec a ++ ", " ++ lf spec b ++ ", " ++ lf spec c ++ ", " ++ lf spec d := by
  simp [writeLanes, String.append_assoc]

/-- C1: for every 4-element `f32` array `a` — every bit pattern included, NaN
payloads, signaling NaNs, negative zero, subnormals and infinities among them —
`to_array (from_array a)` is bit-identical to `a`: both conversions are
transmutes, the identity on the 128 bits. -/
theorem to_array_from_array (a : F32x4) : m128.to_array (m128.from_array a) = a := rfl

/-- C9: the round trip also holds in the other direction: for every `m128`
value `v`, `from_array (to_array v)` is bit-identical to `v`, so the array
bridge is a bijection at the bit-pattern level. -/
theorem from_array_to_array (v : m128) : m128.from_array (m128.to_array v) = v := rfl

/-- C4: `default()` is the all-zero-bits value: `to_array default` has the
all-zero 32-bit pattern in each of the four lanes, and that pattern is IEEE-754
positive zero (numeric value 0, sign bit 0). Being a plain value, `default`
cannot fail. -/
theorem default_is_zero_bits :
    m128.to_array m128.default = ⟨zeroF32, zeroF32, zeroF32, zeroF32⟩ ∧
    F32.to_bits zeroF32 = 0 ∧ f32Val zeroF32 = 0 ∧ f32Sign zeroF32 = 0 := by
  refine ⟨rfl, rfl, ?_, rfl⟩
  norm_num [f32Val, f32Sign, f32Expo, f32Mant, zeroF32]

/-- C6: formatting the default (all-zero) value with the Debug policy yields
exactly `"m128(0.0, 0.0, 0.0, 0.0)"`, as the impl's own doctest asserts. -/
theorem debug_default_literal :
    m128.fmtDebug FmtSpec.dflt m128.default = "m128(0.0, 0.0, 0.0, 0.0)" := by decide

/-- C7: formatting the default value with LowerExp yields exactly
`"(0e0, 0e0, 0e0, 0e0)"` and with UpperExp exactly `"(0E0, 0E0, 0E0, 0E0)"`;
the two scientific-notation lane formatters are one and the same numeric
renderer instantiated at the lowercase and uppercase exponent marker. -/
theorem sci_default_literals :
    m128.fmtLowerExp FmtSpec.dflt m128.default = "(0e0, 0e0, 0e0, 0e0)" ∧
    m128.fmtUpperExp FmtSpec.dflt m128.default = "(0E0, 0E0, 0E0, 0E0)" ∧
    ∀ (spec : FmtSpec) (b : F32),
      f32LowerExp spec b = f32Sci spec "e" b ∧ f32UpperExp spec b = f32Sci spec "E" b :=
  ⟨by decide, by decide, fun _ _ => ⟨rfl, rfl⟩⟩

/-- C5: every one of the formatting policies renders the four lanes in fixed
order 0..3, separated by exactly a comma and one space and wrapped in one pair
of parentheses, the Debug policy additionally prefixing exactly the type name
`m128` and otherwise identically punctuated. -/
theorem policies_template (v : m128) :
    m128.fmtDebug FmtSpec.dflt v =
      "m128(" ++ f32Debug FmtSpec.dflt v.to_array.x0 ++ ", " ++
        f32Debug FmtSpec.dflt v.to_array.x1 ++ ", " ++
        f32Debug FmtSpec.dflt v.to_array.x2 ++ ", " ++
        f32Debug FmtSpec.dflt v.to_array.x3 ++ ")" ∧
    m128.fmtDisplay FmtSpec.dflt v =
      "(" ++ f32Display FmtSpec.dflt v.to_array.x0 ++ ", " ++
        f32Display FmtSpec.dflt v.to_array.x1 ++ ", " ++
        f32Display FmtSpec.dflt v.to_array.x2 ++ ", " ++
        f32Display FmtSpec.dflt v.to_array.x3 ++ ")" ∧
    m128.fmtBinary FmtSpec.dflt v =
      "(" ++ u32Binary FmtSpec.dflt (F32.to_bits v.to_array.x0) ++ ", " ++
        u32Binary FmtSpec.dflt (F32.to_bits v.to_array.x1) ++ ", " ++
        u32Binary FmtSpec.dflt (F32.to_bits v.to_array.x2) ++ ", " ++
        u32Binary FmtSpec.dflt (F32.to_bits v.to_array.x3) ++ ")" ∧
    m128.fmtLowerHex FmtSpec.dflt v =
      "(" ++ u32LowerHex FmtSpec.dflt (F32.to_bits v.to_array.x0) ++ ", " ++
        u32LowerHex FmtSpec.dflt (F32.to_bits v.to_array.x1) ++ ", " ++
        u32LowerHex FmtSpec.dflt (F32.to_bits v.to_array.x2) ++ ", " ++
        u32LowerHex FmtSpec.dflt (F32.to_bits v.to_array.x3) ++ ")" ∧
    m128.fmtUpperHex FmtSpec.dflt v =
      "(" ++ u32UpperHex FmtSpec.dflt (F32.to_bits v.to_array.x0) ++ ", " ++
        u32UpperHex FmtSpec.dflt (F32.to_bits v.to_array.x1) ++ ", " ++
        u32UpperHex FmtSpec.dflt (F32.to_bits v.to_array.x2) ++ ", " ++
        u32UpperHex FmtSpec.dflt (F32.to_bits v.to_array.x3) ++ ")" ∧
    m128.fmtOctal FmtSpec.dflt v =
      "(" ++ u32Octal FmtSpec.dflt (F32.to_bits v.to_array.x0) ++ ", " ++
        u32Octal FmtSpec.dflt (F32.to_bits v.to_array.x1) ++ ", " ++
        u32Octal FmtSpec.dflt (F32.to_bits v.to_array.x2) ++ ", " ++
        u32Octal FmtSpec.dflt (F32.to_bits v.to_array.x3) ++ ")" ∧
    m128.fmtLowerExp FmtSpec.dflt v =
      "(" ++ f32LowerExp FmtSpec.dflt v.to_array.x0 ++ ", " ++
        f32LowerExp FmtSpec.dflt v.to_array.x1 ++ ", " ++
        f32LowerExp FmtSpec.dflt v.to_array.x2 ++ ", " ++
        f32LowerExp FmtSpec.dflt v.to_array.x3 ++ ")" ∧
    m128.fmtUpperExp FmtSpec.dflt v =
      "(" ++ f32UpperExp FmtSpec.dflt v.to_array.x0 ++ ", " ++
        f32UpperExp FmtSpec.dflt v.to_array.x1 ++ ", " ++
        f32UpperExp FmtSpec.dflt v.to_array.x2 ++ ", " ++
        f32UpperExp FmtSpec.dflt v.to_array.x3 ++ ")" := by
  refine ⟨?_, ?_, ?_, ?_, ?_, ?_, ?_, ?_⟩ <;>
    simp [m128.fmtDebug, m128.fmtDisplay, m128.fmtBinary, m128.fmtLowerHex,
      m128.fmtUpperHex, m128.fmtOctal, m128.fmtLowerExp, m128.fmtUpperExp,
      F32x4.lanes, writeLanes_quad, String.append_assoc]

/-- C2: the four integer-bit-pattern policies render each lane's raw 32-bit
IEEE-754 bit pattern, obtained with `to_bits`, as an unsigned integer in base
2, 16, 16 and 8 respectively — never the lane's numeric value. For the array
`[1.0, -1.0, 0.5, 2.0]` (lane values grounded against the IEEE-754 encoding by
the `f32Val` conjuncts), lane 0's bit pattern is `0x3F800000` and its LowerHex
lane rendering is `"3f800000"`, which is not the rendering of the integer 1. -/
theorem bit_policies_render_to_bits :
    (∀ (spec : FmtSpec) (v : m128),
      m128.fmtBinary spec v =
        "(" ++ u32Binary spec (F32.to_bits v.to_array.x0) ++ ", " ++
          u32Binary spec (F32.to_bits v.to_array.x1) ++ ", " ++
          u32Binary spec (F32.to_bits v.to_array.x2) ++ ", " ++
          u32Binary spec (F32.to_bits v.to_array.x3) ++ ")" ∧
      m128.fmtLowerHex spec v =
        "(" ++ u32LowerHex spec (F32.to_bits v.to_array.x0) ++ ", " ++
          u32LowerHex spec (F32.to_bits v.to_array.x1) ++ ", " ++
          u32LowerHex spec (F32.to_bits v.to_array.x2) ++ ", " ++
          u32LowerHex spec (F32.to_bits v.to_array.x3) ++ ")" ∧
      m128.fmtUpperHex spec v =
        "(" ++ u32UpperHex spec (F32.to_bits v.to_array.x0) ++ ", " ++
          u32UpperHex spec (F32.to_bits v.to_array.x1) ++ ", " ++
          u32UpperHex spec (F32.to_bits v.to_array.x2) ++ ", " ++
          u32UpperHex spec (F32.to_bits v.to_array.x3) ++ ")" ∧
      m128.fmtOctal spec v =
        "(" ++ u32Octal spec (F32.to_bits v.to_array.x0) ++ ", " ++
          u32Octal spec (F32.to_bits v.to_array.x1) ++ ", " ++
          u32Octal spec (F32.to_bits v.to_array.x2) ++ ", " ++
          u32Octal spec (F32.to_bits v.to_array.x3) ++ ")") ∧
    f32Val oneBits = 1 ∧ f32Val negOneBits = -1 ∧
    f32Val halfBits = 1 / 2 ∧ f32Val twoBits = 2 ∧
    F32.to_bits oneBits = 0x3F800000 ∧
    u32LowerHex FmtSpec.dflt (F32.to_bits oneBits) = "3f800000" ∧
    m128.fmtLowerHex FmtSpec.dflt (m128.from_array testArr) =
      "(3f800000, bf800000, 3f000000, 40000000)" ∧
    u32LowerHex FmtSpec.dflt (F32.to_bits oneBits) ≠ u32LowerHex FmtSpec.dflt 1 := by
  refine ⟨fun spec v => ?_, ?_, ?_, ?_, ?_, rfl, by decide, by decide, by decide⟩
  · refine ⟨?_, ?_, ?_, ?_⟩ <;>
      simp [m128.fmtBinary, m128.fmtLowerHex, m128.fmtUpperHex, m128.fmtOctal,
        F32x4.lanes, writeLanes_quad, String.append_assoc]
  · norm_num [f32Val, f32Sign, f32Expo, f32Mant, oneBits]
  · norm_num [f32Val, f32Sign, f32Expo, f32Mant, negOneBits]
  · norm_num [f32Val, f32Sign, f32Expo, f32Mant, halfBits]
  · norm_num [f32Val, f32Sign, f32Expo, f32Mant, twoBits]

/-- C8: `clone` returns a bit-identical value, and a clone made before a write
through the writable `as_mut` view is an independent copy: the write lands in
the written value's lane while every lane of the previously made clone keeps
the pre-write bits. -/
theorem clone_independent (v : m128) (i : Fin 4) (x : F32) :
    m128.clone v = v ∧
    (m128.set_lane v i x).lane i = x ∧
    ∀ j : Fin 4, (m128.clone v).lane j = v.lane j := by
  refine ⟨rfl, ?_, fun j => rfl⟩
  fin_cases i <;> rfl

/-- C10: every formatting implementation hands the caller's own formatter
parameters to each lane's one-lane formatter, so width, fill, sign, zero-pad,
precision and alternate form apply to each of the four lane renderings
individually and never to the assembled parenthesized string: with the
alternate flag, LowerHex leads every lane (not the outer string) with `0x`,
and a width of 4 pads every lane (not the outer string) to 4 columns. -/
theorem formatter_params_per_lane :
    (∀ (spec : FmtSpec) (v : m128),
      m128.fmtDebug spec v =
        "m128(" ++ f32Debug spec v.to_array.x0 ++ ", " ++ f32Debug spec v.to_array.x1 ++
          ", " ++ f32Debug spec v.to_array.x2 ++ ", " ++ f32Debug spec v.to_array.x3 ++ ")" ∧
      m128.fmtDisplay spec v =
        "(" ++ f32Display spec v.to_array.x0 ++ ", " ++ f32Display spec v.to_array.x1 ++
          ", " ++ f32Display spec v.to_array.x2 ++ ", " ++ f32Display spec v.to_array.x3 ++ ")" ∧
      m128.fmtLowerExp spec v =
        "(" ++ f32LowerExp spec v.to_array.x0 ++ ", " ++ f32LowerExp spec v.to_array.x1 ++
          ", " ++ f32LowerExp spec v.to_array.x2 ++ ", " ++ f32LowerExp spec v.to_array.x3 ++ ")" ∧
      m128.fmtUpperExp spec v =
        "(" ++ f32UpperExp spec v.to_array.x0 ++ ", " ++ f32UpperExp spec v.to_array.x1 ++
          ", " ++ f32UpperExp spec v.to_array.x2 ++ ", " ++ f32UpperExp spec v.to_array.x3 ++ ")" ∧
      m128.fmtBinary spec v =
        "(" ++ u32Binary spec (F32.to_bits v.to_array.x0) ++ ", " ++
          u32Binary spec (F32.to_bits v.to_array.x1) ++ ", " ++
          u32Binary spec (F32.to_bits v.to_array.x2) ++ ", " ++
          u32Binary spec (F32.to_bits v.to_array.x3) ++ ")" ∧
      m128.fmtLowerHex spec v =
        "(" ++ u32LowerHex spec (F32.to_bits v.to_array.x0) ++ ", " ++
          u32LowerHex spec (F32.to_bits v.to_array.x1) ++ ", " ++
          u32LowerHex spec (F32.to_bits v.to_array.x2) ++ ", " ++
          u32LowerHex spec (F32.to_bits v.to_array.x3) ++ ")" ∧
      m128.fmtUpperHex spec v =
        "(" ++ u32UpperHex spec (F32.to_bits v.to_array.x0) ++ ", " ++
          u32UpperHex spec (F32.to_bits v.to_array.x1) ++ ", " ++
          u32UpperHex spec (F32.to_bits v.to_array.x2) ++ ", " ++
          u32UpperHex spec (F32.to_bits v.to_array.x3) ++ ")" ∧
      m128.fmtOctal spec v =
        "(" ++ u32Octal spec (F32.to_bits v.to_array.x0) ++ ", " ++
          u32Octal spec (F32.to_bits v.to_array.x1) ++ ", " ++
          u32Octal spec (F32.to_bits v.to_array.x2) ++ ", " ++
          u32Octal spec (F32.to_bits v.to_array.x3) ++ ")") ∧
    m128.fmtLowerHex FmtSpec.alt m128.default = "(0x0, 0x0, 0x0, 0x0)" ∧
    m128.fmtLowerHex FmtSpec.width4 m128.default = "(   0,    0,    0,    0)" := by
  refine ⟨fun spec v => ?_, by decide, by decide⟩
  refine ⟨?_, ?_, ?_, ?_, ?_, ?_, ?_, ?_⟩ <;>
    simp [m128.fmtDebug, m128.fmtDisplay, m128.fmtBinary, m128.fmtLowerHex,
      m128.fmtUpperHex, m128.fmtOctal, m128.fmtLowerExp, m128.fmtUpperExp,
      F32x4.lanes, writeLanes_quad, String.append_assoc]
